import Mathlib

/-
  Verification of the conversational orchestration engine of the
  AI-mockup-generator repository, against its specification.

  The repository ships the React presentation layer (ChatScreen.js,
  EditorPage.js, ReportPage) and documentation of the layered backend
  (LAYERED_ARCHITECTURE_README.md); the backend layer implementations
  (recovery_layer.py, control_layer.py, memory_layer.py, feedback_layer.py,
  validation_layer.py, orchestrator) are not part of the source tree.
  Where a claim is decided by that missing backend code, the relevant
  component is modelled from the specification text and marked as such in
  its doc comment.  Everything concerning the frontend is translated
  directly from the JavaScript source.
-/

/-! ## Shared data model (spec section 3) -/

/-- Modelled from the spec: Session.phase takes one of five workflow values
(backend memory layer is not in the source tree). -/
inductive Phase
  | INITIAL
  | CATEGORY_SELECTED
  | TEMPLATE_CONFIRMED
  | EDITING
  | FINALIZED
deriving DecidableEq, Repr

/-- Modelled from the spec: a Message sender is the user or the system. -/
inductive Sender
  | user
  | system
deriving DecidableEq, Repr

/-- Modelled from the spec: a conversation Message (sender, content,
timestamp, optional intent tag). -/
structure Message where
  sender : Sender
  content : String
  timestamp : Nat
  intentTag : Option String
deriving DecidableEq, Repr

/-- Modelled from the spec: a Session record — opaque id, phase, context
mapping, ordered history, creation and update timestamps. -/
structure Session where
  id : String
  phase : Phase
  context : List (String × String)
  history : List Message
  createdAt : Nat
  updatedAt : Nat
deriving DecidableEq, Repr

/-! ## C1 — circuit breaker (RecoveryWrapper, spec section 4.7)

The breaker for one external dependency.  The backend file
recovery_layer.py is not in the source tree, so the state machine is
modelled from the spec: CLOSED moves to OPEN after N consecutive failures
inside the rolling window; while OPEN every call short-circuits with
CircuitOpenError for the cooldown period; once the cooldown elapses the
next call is the single HALF_OPEN probe, returning to CLOSED on success
and to OPEN on failure. -/

/-- Modelled from the spec: the three breaker states. -/
inductive BreakerState
  | CLOSED
  | OPEN
  | HALF_OPEN
deriving DecidableEq, Repr

/-- Modelled from the spec: breaker configuration — failure threshold N,
rolling-window length, cooldown period. -/
structure BreakerConfig where
  threshold : Nat
  window : Nat
  cooldown : Nat
deriving DecidableEq, Repr

/-- Modelled from the spec: per-dependency breaker bookkeeping — stored
state, timestamps of the current run of consecutive failures (newest
first), and the instant at which the cooldown ends. -/
structure Breaker where
  state : BreakerState
  failureTimes : List Nat
  cooldownUntil : Nat
deriving DecidableEq, Repr

/-- Modelled from the spec: the freshly created breaker is CLOSED with no
recorded failures. -/
def Breaker.initial : Breaker :=
  { state := BreakerState.CLOSED, failureTimes := [], cooldownUntil := 0 }

/-- Modelled from the spec: outcome of one wrapped call — the underlying
tool was invoked and succeeded, was invoked and failed, or the call was
short-circuited with CircuitOpenError. -/
inductive BreakerResult
  | ok
  | failed
  | circuitOpen
deriving DecidableEq, Repr

/-- Whether the underlying tool was invoked for this outcome: every
outcome except the CircuitOpenError short-circuit invoked it. -/
def BreakerResult.invoked : BreakerResult → Bool
  | BreakerResult.circuitOpen => false
  | _ => true

/-- Modelled from the spec: keep only the failure timestamps still inside
the rolling window that ends at time t. -/
def pruneWindow (cfg : BreakerConfig) (t : Nat) (times : List Nat) : List Nat :=
  times.filter (fun s => t < s + cfg.window)

/-- Modelled from the spec: the effective state seen by a call at time t —
an OPEN breaker whose cooldown has elapsed is observed HALF_OPEN, ready
for its one probe call. -/
def Breaker.observedState (b : Breaker) (t : Nat) : BreakerState :=
  if b.state = BreakerState.OPEN ∧ b.cooldownUntil ≤ t then BreakerState.HALF_OPEN
  else b.state

/-- Modelled from the spec: one wrapped call at time t whose underlying
outcome (when invoked) is success. The breaker decides whether the tool
runs at all and how its state advances. -/
def breakerCall (cfg : BreakerConfig) (b : Breaker) (t : Nat) (success : Bool) :
    BreakerResult × Breaker :=
  match b.observedState t with
  | BreakerState.OPEN => (BreakerResult.circuitOpen, b)
  | BreakerState.HALF_OPEN =>
      if success then
        (BreakerResult.ok, Breaker.initial)
      else
        (BreakerResult.failed,
          { state := BreakerState.OPEN, failureTimes := [t], cooldownUntil := t + cfg.cooldown })
  | BreakerState.CLOSED =>
      if success then
        (BreakerResult.ok, Breaker.initial)
      else
        let fs := pruneWindow cfg t (t :: b.failureTimes)
        if cfg.threshold ≤ fs.length then
          (BreakerResult.failed,
            { state := BreakerState.OPEN, failureTimes := fs, cooldownUntil := t + cfg.cooldown })
        else
          (BreakerResult.failed,
            { state := BreakerState.CLOSED, failureTimes := fs, cooldownUntil := b.cooldownUntil })

/-- Modelled from the spec: a whole sequence of wrapped calls, each a
timestamped underlying outcome, folded through the breaker. -/
def breakerRun (cfg : BreakerConfig) (b : Breaker) :
    List (Nat × Bool) → List BreakerResult × Breaker
  | [] => ([], b)
  | (t, s) :: rest =>
      let (r, b1) := breakerCall cfg b t s
      let (rs, b2) := breakerRun cfg b1 rest
      (r :: rs, b2)

/-- Concrete breaker configuration used by the C1 witness. -/
def cfgW : BreakerConfig := { threshold := 3, window := 100, cooldown := 50 }

/-- Concrete OPEN breaker used by the C1 witness. -/
def bOpenW : Breaker := { state := BreakerState.OPEN, failureTimes := [2, 1, 0], cooldownUntil := 52 }

/-- Concrete CLOSED breaker with two recent failures, used by the C1
witness. -/
def bClosedW : Breaker := { state := BreakerState.CLOSED, failureTimes := [1, 0], cooldownUntil := 0 }


/-! ## C2 — RecoveryWrapper retry loop (spec section 4.7)

recovery_layer.py is not in the source tree; the retry loop and the
backoff schedule are modelled from the spec: on a transient error wait
per RetryPolicy and retry up to maxAttempts; on a fatal error fail
immediately without retrying. -/

/-- Modelled from the spec: a tool classifies its errors as transient
(safe to retry) or fatal (retrying is pointless). -/
inductive ErrorKind
  | transient
  | fatal
deriving DecidableEq, Repr

/-- Modelled from the spec: the three retry strategies. -/
inductive Strategy
  | linear
  | exponential
  | fibonacci
deriving DecidableEq, Repr

/-- Modelled from the spec: RetryPolicy — strategy, max attempts, base
delay, jitter flag; configured per external dependency. -/
structure RetryPolicy where
  strategy : Strategy
  maxAttempts : Nat
  baseDelay : Nat
  jitter : Bool
deriving DecidableEq, Repr

/-- Fibonacci numbers, for the fibonacci backoff strategy. -/
def fibSeq : Nat → Nat
  | 0 => 0
  | 1 => 1
  | n + 2 => fibSeq n + fibSeq (n + 1)

/-- Modelled from the spec: the delay waited before retry number n
(0-based) under the policy; when the jitter flag is set a jitter amount
bounded by the base delay, drawn from the source jit, is added. -/
def retryDelay (p : RetryPolicy) (jit : Nat → Nat) (n : Nat) : Nat :=
  (match p.strategy with
    | Strategy.linear => p.baseDelay * (n + 1)
    | Strategy.exponential => p.baseDelay * 2 ^ n
    | Strategy.fibonacci => p.baseDelay * fibSeq (n + 1)) +
  (if p.jitter then jit n % (p.baseDelay + 1) else 0)

/-- Modelled from the spec: the retry loop over an operation whose
attempt number i has outcome op i, with the given remaining attempt
budget; returns how many attempts were performed and the final outcome.
A transient error is retried while budget remains; success and fatal
errors stop the loop at once. -/
def retryLoop {α : Type} (op : Nat → Except ErrorKind α) (i : Nat) :
    Nat → Nat × Except ErrorKind α
  | 0 => (0, Except.error ErrorKind.transient)
  | budget + 1 =>
      match op i with
      | Except.ok v => (1, Except.ok v)
      | Except.error ErrorKind.fatal => (1, Except.error ErrorKind.fatal)
      | Except.error ErrorKind.transient =>
          let (n, r) := retryLoop op (i + 1) budget
          (n + 1, r)

/-- Modelled from the spec: RecoveryWrapper runs the wrapped operation
with the policy's full attempt budget. -/
def runRetry {α : Type} (p : RetryPolicy) (op : Nat → Except ErrorKind α) :
    Nat × Except ErrorKind α :=
  retryLoop op 0 p.maxAttempts

/-- Concrete exponential retry policy used by the C2 witness. -/
def pW : RetryPolicy :=
  { strategy := Strategy.exponential, maxAttempts := 5, baseDelay := 10, jitter := true }

/-- Concrete jitter source used by the C2 witness. -/
def jitW : Nat → Nat := fun n => 7 * n + 3

/-- Concrete operation that fails transiently twice and then succeeds,
used by the C2 witness. -/
def opW : Nat → Except ErrorKind String := fun i =>
  if i < 2 then Except.error ErrorKind.transient else Except.ok "done"

/-- Concrete operation that fails fatally at once, used by the C2
witness. -/
def opFatalW : Nat → Except ErrorKind String := fun _ => Except.error ErrorKind.fatal

/-! ## C3 — error-level validation aborts the ActionPlan (spec sections 4.5, 4.8)

validation_layer.py and the orchestrator are not in the source tree; the
plan executor is modelled from the spec: steps run in declared order, an
error-level ValidationResult aborts the remaining steps, warnings are
attached to the turn's response metadata and never block. -/

/-- Modelled from the spec: ValidationResult levels. -/
inductive Level
  | info
  | warning
  | error
deriving DecidableEq, Repr

/-- Modelled from the spec: a per-field validation result. -/
structure ValidationResult where
  field : String
  level : Level
  message : String
deriving DecidableEq, Repr

/-- Modelled from the spec: a plan step is a tool call or an llm call. -/
inductive StepKind
  | tool_call
  | llm_call
deriving DecidableEq, Repr

/-- Modelled from the spec: one ActionPlan step (kind and name). -/
structure Step where
  kind : StepKind
  name : String
deriving DecidableEq, Repr

/-- Whether some result in the list is error-level. -/
def hasError (rs : List ValidationResult) : Bool :=
  rs.any (fun r => r.level == Level.error)

/-- The warning-level results, the ones attached to the turn's response
metadata. -/
def warningsOf (rs : List ValidationResult) : List ValidationResult :=
  rs.filter (fun r => r.level == Level.warning)

/-- Modelled from the spec: a step's semantics — the validation results
its execution produces and its effect on the session. -/
structure StepOutcome where
  results : List ValidationResult
  effect : Session → Session

/-- Modelled from the spec: the visible outcome of running a plan — the
names of the steps that ran, the warnings attached to the response
metadata, the error results of the failing step when one occurred, and
the final session. -/
structure PlanRun where
  ran : List String
  warnings : List ValidationResult
  errors : List ValidationResult
  session : Session
deriving DecidableEq, Repr

/-- Modelled from the spec: execute plan steps in declared order; a step
whose results carry an error level aborts the remaining steps without
applying its effect, while warnings are collected and never block. -/
def runPlan (sem : Step → StepOutcome) (s : Session) : List Step → PlanRun
  | [] => { ran := [], warnings := [], errors := [], session := s }
  | st :: rest =>
      let o := sem st
      if hasError o.results then
        { ran := [st.name], warnings := warningsOf o.results, errors := o.results, session := s }
      else
        let r := runPlan sem (o.effect s) rest
        { ran := st.name :: r.ran, warnings := warningsOf o.results ++ r.warnings,
          errors := r.errors, session := r.session }

/-- Folding the effects of a list of steps over a session, for stating
which session the executor reaches. -/
def applyEffects (sem : Step → StepOutcome) (s : Session) (steps : List Step) : Session :=
  steps.foldl (fun acc p => (sem p).effect acc) s

/-- The modification-request ActionPlan built by the ControlPlane per
spec section 4.2. -/
def modificationPlan : List Step :=
  [{ kind := StepKind.llm_call, name := "analyze_modification" },
   { kind := StepKind.tool_call, name := "apply_modification" },
   { kind := StepKind.tool_call, name := "refresh_preview" }]

/-- Step semantics for the C3 scenario: the analysis step reports an
error-level result on the target_selector field because the selector
does not exist; the later steps would touch the session if they ran. -/
def selectorErrorSem : Step → StepOutcome := fun st =>
  if st.name = "analyze_modification" then
    { results := [{ field := "target_selector", level := Level.error,
                    message := "selector does not reference an existing element" }],
      effect := id }
  else
    { results := [],
      effect := fun s => { s with phase := Phase.FINALIZED, context := ("touched", "yes") :: s.context } }

/-- Concrete EDITING session for the C3 scenario witness. -/
def sessionW : Session :=
  { id := "s1", phase := Phase.EDITING, context := [("category", "landing")],
    history := [], createdAt := 100, updatedAt := 200 }

/-! ## C5 — SessionStore.reset (spec section 4.1)

memory_layer.py is not in the source tree; the store is modelled from
the spec as a mapping from opaque ids to session records. -/

/-- Modelled from the spec: the session store, a mapping of opaque
session ids to session records. -/
def SessionStore : Type := String → Option Session

/-- Modelled from the spec: getOrCreate returns the stored session or
creates a fresh INITIAL one stamped with the current time. -/
def SessionStore.getOrCreate (store : SessionStore) (sessionId : String) (now : Nat) : Session :=
  match store sessionId with
  | some s => s
  | none =>
      { id := sessionId, phase := Phase.INITIAL, context := [], history := [],
        createdAt := now, updatedAt := now }

/-- Modelled from the spec: reset restores phase to INITIAL and clears
context and history while keeping the session id and the creation
timestamp; every other id keeps its record. -/
def SessionStore.reset (store : SessionStore) (sessionId : String) : SessionStore :=
  fun k =>
    if k = sessionId then
      match store sessionId with
      | some s => some { s with phase := Phase.INITIAL, context := [], history := [] }
      | none => none
    else store k

/-- Concrete session under id a, used by the C5 witness. -/
def sessAW : Session :=
  { id := "a", phase := Phase.EDITING, context := [("category", "login")],
    history := [{ sender := Sender.user, content := "hi", timestamp := 5, intentTag := none }],
    createdAt := 3, updatedAt := 9 }

/-- Concrete session under id b, used by the C5 witness. -/
def sessBW : Session :=
  { id := "b", phase := Phase.FINALIZED, context := [], history := [],
    createdAt := 4, updatedAt := 4 }

/-- Concrete two-session store used by the C5 witness. -/
def storeW : SessionStore := fun k =>
  if k = "a" then some sessAW else if k = "b" then some sessBW else none

/-! ## C6 — FeedbackGate exactly-once resolution (spec section 4.6)

feedback_layer.py is not in the source tree; resolution is modelled from
the spec. -/

/-- Modelled from the spec: FeedbackRequest status values. -/
inductive FeedbackStatus
  | pending
  | approved
  | denied
  | timed_out
deriving DecidableEq, Repr

/-- Modelled from the spec: a FeedbackRequest — id, originating step
reference, payload, status, deadline, its risk category for the default
policy, and the recorded outcome once resolved (some true lets the step
proceed, some false skips it). -/
structure FeedbackRequest where
  id : String
  stepRef : String
  payload : String
  status : FeedbackStatus
  deadline : Nat
  lowRisk : Bool
  outcome : Option Bool
deriving DecidableEq, Repr

/-- Modelled from the spec: how a resolution arrives — an explicit
external approve or deny, or the deadline sweep observing the clock. -/
inductive ResolveAction
  | approve
  | deny
  | sweep (now : Nat)
deriving DecidableEq, Repr

/-- Modelled from the spec: resolution is exactly-once.  An
already-resolved request is returned unchanged with its original
outcome; a pending request resolves on explicit approve/deny, or on the
sweep once the deadline has passed, per the configured default policy —
auto-approve for low-risk categories, auto-deny otherwise. -/
def resolve (r : FeedbackRequest) (a : ResolveAction) : Option Bool × FeedbackRequest :=
  if r.status ≠ FeedbackStatus.pending then (r.outcome, r)
  else
    match a with
    | ResolveAction.approve =>
        (some true, { r with status := FeedbackStatus.approved, outcome := some true })
    | ResolveAction.deny =>
        (some false, { r with status := FeedbackStatus.denied, outcome := some false })
    | ResolveAction.sweep now =>
        if r.deadline ≤ now then
          (some r.lowRisk, { r with status := FeedbackStatus.timed_out, outcome := some r.lowRisk })
        else (none, r)

/-- Concrete pending low-risk request past whose deadline the C6 witness
sweeps. -/
def reqW : FeedbackRequest :=
  { id := "fr1", stepRef := "apply_modification", payload := "color change",
    status := FeedbackStatus.pending, deadline := 10, lowRisk := true, outcome := none }

/-! ## C7 — a turn always returns a structured result (spec sections 6, 7)

The orchestrator is not in the source tree; the turn assembly is
modelled from the spec: the turn always returns a response, and step
failures become actions with success false and an error description. -/

/-- The inbound turn request of spec section 6. -/
structure TurnRequest where
  sessionId : String
  message : String
  attachments : Option (List String)
deriving DecidableEq, Repr

/-- One entry of the outbound actions list of spec section 6. -/
structure ActionResult where
  action : String
  success : Bool
  data : Option String
  error : Option String
deriving DecidableEq, Repr

/-- The outbound turn result of spec section 6. -/
structure TurnResult where
  response : String
  sessionId : String
  actions : List ActionResult
  intent : String
  transitionData : Option String
deriving DecidableEq, Repr

/-- Modelled from the spec: a step's raw outcome becomes an ActionResult
— success carries the data, failure carries success false and the error
description, never an escaping exception. -/
def actionOf (stepName : String) (exec : Except String String) : ActionResult :=
  match exec with
  | Except.ok v => { action := stepName, success := true, data := some v, error := none }
  | Except.error e => { action := stepName, success := false, data := none, error := some e }

/-- Modelled from the spec: the orchestrator maps every executed step of
the turn to an ActionResult and always assembles the full outbound
TurnResult. -/
def runTurn (req : TurnRequest) (respText : String) (intent : String)
    (td : Option String) (steps : List (String × Except String String)) : TurnResult :=
  { response := respText, sessionId := req.sessionId,
    actions := steps.map (fun p => actionOf p.1 p.2), intent := intent, transitionData := td }

/-- Concrete turn request used by the C7 witness. -/
def reqTurnW : TurnRequest :=
  { sessionId := "s42", message := "make the button red", attachments := none }

/-- Concrete step outcomes, one failing, used by the C7 witness. -/
def stepsW : List (String × Except String String) :=
  [("analyze_modification", Except.ok "plan"),
   ("apply_modification", Except.error "tool unavailable")]

/-- JS String.prototype.trim whitespace set, as used by the frontend
message guards. -/
def isJsWhitespace (c : Char) : Bool := c == ' ' || c == '\t' || c == '\n' || c == '\r'

/-- JS String.prototype.trim: strip leading and trailing whitespace. -/
def jsTrim (s : String) : String :=
  ⟨((s.data.dropWhile isJsWhitespace).reverse.dropWhile isJsWhitespace).reverse⟩

/-- JS String.prototype.startsWith over the character lists. -/
def strStartsWithList : List Char → List Char → Bool
  | _, [] => true
  | [], _ :: _ => false
  | c :: cs, d :: ds => c == d && strStartsWithList cs ds

/-- JS String.prototype.startsWith. -/
def strStartsWith (s pat : String) : Bool := strStartsWithList s.data pat.data

/-! ## C9 — uiCodes refresh in the editor chat turn
(frontend/src/EditorPage.js, handleSendMessage, non-logo path) -/

/-- The reply body of the ui-editor chat endpoint, as far as
EditorPage.handleSendMessage reads it: success flag, response text,
optional ui_modifications payload, and the optional metadata intent
(none when metadata or its intent field is absent). -/
structure EditorChatData where
  success : Bool
  response : String
  ui_modifications : Option String
  metadataIntent : Option String
deriving DecidableEq, Repr

/-- One editor chat transcript entry (type is ai or user). -/
structure EditorMsg where
  type : String
  content : String
deriving DecidableEq, Repr

/-- The component state handleSendMessage touches: the transcript, the
displayed uiCodes (none while unloaded), the input box and the sending
flag. -/
structure EditorState where
  chatMessages : List EditorMsg
  uiCodes : Option String
  inputMessage : String
  isSending : Bool
deriving DecidableEq, Repr

/-- The refresh condition of EditorPage.js line 426: modifications are
present and the metadata intent equals modification_request. -/
def refreshCondition (d : EditorChatData) : Bool :=
  d.ui_modifications.isSome && d.metadataIntent == some "modification_request"

/-- handleSendMessage from EditorPage.js, non-logo path.  It guards on an
empty input or a send already in flight; the endpoint reply is either a
transport error (response not ok, or a network failure) or a parsed
body.  On a successful body the ai response is appended and fetchUICodes
re-fetches the session codes exactly when the refresh condition holds;
every error path only appends an error message.  fetched is the value
fetchUICodes would install. -/
def handleSendMessage (st : EditorState) (reply : Except String EditorChatData)
    (fetched : Option String) : EditorState :=
  if jsTrim st.inputMessage = "" ∨ st.isSending = true then st
  else
    let st1 := { st with
      chatMessages := st.chatMessages ++ [({ type := "user", content := jsTrim st.inputMessage } : EditorMsg)],
      inputMessage := "" }
    let st2 :=
      match reply with
      | Except.error e =>
          { st1 with chatMessages := st1.chatMessages ++
              [({ type := "ai", content := "Sorry, I encountered an error: " ++ e } : EditorMsg)] }
      | Except.ok d =>
          if d.success then
            let st3 := { st1 with chatMessages := st1.chatMessages ++
                [({ type := "ai", content := d.response } : EditorMsg)] }
            if refreshCondition d then { st3 with uiCodes := fetched } else st3
          else
            { st1 with chatMessages := st1.chatMessages ++
                [({ type := "ai", content := "Sorry, I encountered an error: " ++ d.response } : EditorMsg)] }
    { st2 with isSending := false }

/-- Concrete editor state used by the C9 witness. -/
def editorStateW : EditorState :=
  { chatMessages := [], uiCodes := some "original codes",
    inputMessage := "make the header blue", isSending := false }

/-- Concrete successful reply carrying modifications with the
modification_request intent, used by the C9 witness. -/
def replyModW : EditorChatData :=
  { success := true, response := "Changed the header color.",
    ui_modifications := some "header css", metadataIntent := some "modification_request" }

/-- Concrete successful reply without modifications (a plain answer),
used by the C9 witness. -/
def replyPlainW : EditorChatData :=
  { success := true, response := "Here is some advice.",
    ui_modifications := none, metadataIntent := some "general_query" }

/-! ## C10 — logo upload validation
(frontend/src/EditorPage.js, handleLogoUpload) -/

/-- A file as offered by the browser file input: name, MIME type, size
in bytes, and the data URL FileReader.readAsDataURL would produce. -/
structure JsFile where
  name : String
  type : String
  size : Nat
  dataUrl : String
deriving DecidableEq, Repr

/-- The logo slice of the editor state that handleLogoUpload writes:
uploadedLogo and logoPreview. -/
structure LogoState where
  uploadedLogo : Option JsFile
  logoPreview : Option String
deriving DecidableEq, Repr

/-- handleLogoUpload from EditorPage.js: a file whose MIME type does not
start with image/ or whose size exceeds 5 MB triggers an alert and is
dropped; otherwise the file is stored and the preview set from the data
URL.  The returned flag is whether the alert fired. -/
def handleLogoUpload (st : LogoState) (file : Option JsFile) : LogoState × Bool :=
  match file with
  | none => (st, false)
  | some f =>
      if ¬ (strStartsWith f.type "image/" = true) then (st, true)
      else if 5 * 1024 * 1024 < f.size then (st, true)
      else ({ uploadedLogo := some f, logoPreview := some f.dataUrl }, false)

/-- Concrete empty logo state used by the C10 witness. -/
def logoStateW : LogoState := { uploadedLogo := none, logoPreview := none }

/-- Concrete acceptable image file used by the C10 witness. -/
def fileGoodW : JsFile :=
  { name := "logo.png", type := "image/png", size := 1024, dataUrl := "data-url-of-logo" }

/-- Concrete oversized image file used by the C10 witness. -/
def fileBigW : JsFile :=
  { name := "big.png", type := "image/png", size := 6000000, dataUrl := "data-url-of-big" }

/-! ## C4 — intent values of a turn
(spec section 4.2; frontend/src/ChatScreen.js line 211) -/

/-- The five Intent labels of spec section 4.2. -/
def intentLabels : List String :=
  ["category_selection", "modification_request", "confirmation",
   "finalize_request", "general_query"]

/-- Modelled from the spec: classification (control_layer.py is not in
the source tree) — a deterministic rule match wins; otherwise the
gateway label is taken unless its confidence is below the threshold, in
which case it is coerced to general_query. -/
def classify (ruleMatch : Option String) (gatewayLabel : String)
    (confidence threshold : Nat) : String :=
  match ruleMatch with
  | some i => i
  | none => if confidence < threshold then "general_query" else gatewayLabel

/-- The orchestrator chat reply as ChatScreen.sendToMultiAgent reads it:
response text and optional session id, intent and transition data. -/
structure ChatData where
  response : String
  session_id : Option String
  intent : Option String
  transition_data : Option String
deriving DecidableEq, Repr

/-- The phase-transition check of ChatScreen.js line 211: the frontend
navigates to the editor exactly when transition data is present and the
reply intent equals phase_transition. -/
def isPhaseTransition (d : ChatData) : Bool :=
  d.transition_data.isSome && d.intent == some "phase_transition"

/-- The concrete editor-handoff reply shape that ChatScreen.js branches
on. -/
def transitionReplyW : ChatData :=
  { response := "Template confirmed, moving to the editor.",
    session_id := some "s42", intent := some "phase_transition",
    transition_data := some "selected-template" }

/-! ## C8 — timeouts on the frontend's external calls
(ReportPage withTimeout; ChatScreen.js and EditorPage.js fetches) -/

/-- withTimeout from ReportPage: Promise.race between the wrapped
request and a timer rejecting with Request timed out after ms
milliseconds; settleTime is the instant the wrapped promise would
settle, so the request wins the race exactly when it settles strictly
before the timer fires. -/
def withTimeout (settleTime : Nat) (result : Except String String) (ms : Nat) :
    Except String String :=
  if settleTime < ms then result else Except.error "Request timed out"

/-- The default ms argument of withTimeout in ReportPage. -/
def defaultTimeoutMs : Nat := 60000

/-- An external call site of the frontend together with the timeout the
source configures for it (none when the fetch carries no timeout). -/
structure CallSite where
  endpoint : String
  timeoutMs : Option Nat
deriving DecidableEq, Repr

/-- The external calls of the frontend workflow and their configured
timeouts, from the source: the category fetch uses a 10 s AbortSignal
(ChatScreen.js line 54); report generation and download are wrapped in
withTimeout with the 60 s default (ReportPage); the chat turn, claude,
session reset, editor chat, logo analysis and modification fetches
carry no timeout at all. -/
def externalCallSites : List CallSite :=
  [{ endpoint := "api/templates/categories", timeoutMs := some 10000 },
   { endpoint := "api/chat", timeoutMs := none },
   { endpoint := "api/claude", timeoutMs := none },
   { endpoint := "api/session/reset", timeoutMs := none },
   { endpoint := "api/ui-editor/chat", timeoutMs := none },
   { endpoint := "api/ui-editor/analyze-logo", timeoutMs := none },
   { endpoint := "api/ui-codes/modify", timeoutMs := none },
   { endpoint := "api/ui-editor/generate-custom-report", timeoutMs := some 60000 },
   { endpoint := "api/reports/download", timeoutMs := some 60000 }]

/-- The chat-turn call site (ChatScreen.sendToMultiAgent, the fetch at
line 168), which has no timeout. -/
def chatCallSite : CallSite := { endpoint := "api/chat", timeoutMs := none }

/-! ## Claim theorems -/

/-- C1: the circuit breaker moves from CLOSED to OPEN exactly when the
threshold of consecutive failures is reached inside the rolling window;
while OPEN and before the cooldown every call returns CircuitOpenError
without invoking the tool and leaves the breaker unchanged; once the
cooldown elapses the call is the HALF_OPEN probe, invoked, returning the
breaker to CLOSED on success and to OPEN on failure; and with threshold
N = 3, after three consecutive failures of the same tool the fourth call
in the window returns CircuitOpenError without invoking the tool. -/
theorem C1_circuit_breaker (cfg : BreakerConfig) (b : Breaker) (t : Nat) (s : Bool) :
    (b.state = BreakerState.CLOSED →
      ((breakerCall cfg b t false).2.state = BreakerState.OPEN ↔
        cfg.threshold ≤ (pruneWindow cfg t (t :: b.failureTimes)).length)) ∧
    (b.state = BreakerState.OPEN → t < b.cooldownUntil →
      breakerCall cfg b t s = (BreakerResult.circuitOpen, b) ∧
      BreakerResult.invoked (breakerCall cfg b t s).1 = false) ∧
    (b.state = BreakerState.OPEN → b.cooldownUntil ≤ t →
      Breaker.observedState b t = BreakerState.HALF_OPEN ∧
      BreakerResult.invoked (breakerCall cfg b t s).1 = true ∧
      (s = true → (breakerCall cfg b t s).2.state = BreakerState.CLOSED) ∧
      (s = false → (breakerCall cfg b t s).2.state = BreakerState.OPEN)) ∧
    ((breakerRun { threshold := 3, window := 100, cooldown := 50 } Breaker.initial
        [(0, false), (1, false), (2, false), (3, s)]).1 =
      [BreakerResult.failed, BreakerResult.failed, BreakerResult.failed,
        BreakerResult.circuitOpen] ∧
      BreakerResult.invoked BreakerResult.circuitOpen = false) := by
  refine ⟨?_, ?_, ?_, ?_⟩
  · intro h
    have ho : b.observedState t = BreakerState.CLOSED := by
      simp [Breaker.observedState, h]
    by_cases hl : cfg.threshold ≤ (pruneWindow cfg t (t :: b.failureTimes)).length
    · simp [breakerCall, ho, hl]
    · simp [breakerCall, ho, hl]
  · intro h ht
    have ho : b.observedState t = BreakerState.OPEN := by
      simp [Breaker.observedState, h, Nat.not_le.mpr ht]
    constructor
    · simp only [breakerCall, ho]
    · simp only [breakerCall, ho, BreakerResult.invoked]
  · intro h hc
    have ho : b.observedState t = BreakerState.HALF_OPEN := by
      simp [Breaker.observedState, h, hc]
    refine ⟨ho, ?_, ?_, ?_⟩
    · simp only [breakerCall, ho]
      cases s <;> simp [BreakerResult.invoked]
    · intro hs; simp [breakerCall, ho, hs, Breaker.initial]
    · intro hs; simp [breakerCall, ho, hs]
  · cases s <;> exact ⟨by decide, rfl⟩

/-- Witness for C1 at a concrete breaker: an OPEN breaker before its
cooldown short-circuits, and a CLOSED breaker at its third in-window
failure trips OPEN. -/
theorem C1_circuit_breaker_witness :
    breakerCall cfgW bOpenW 10 true = (BreakerResult.circuitOpen, bOpenW) ∧
    (breakerCall cfgW bClosedW 2 false).2.state = BreakerState.OPEN := by
  refine ⟨((C1_circuit_breaker cfgW bOpenW 10 true).2.1 (by decide) (by decide)).1, ?_⟩
  exact ((C1_circuit_breaker cfgW bClosedW 2 false).1 (by decide)).mpr (by decide)

/-- Helper: when every attempt inside the budget fails transiently, the
retry loop spends the whole budget and surfaces the transient error. -/
theorem retryLoop_all_transient {α : Type} (op : Nat → Except ErrorKind α) (budget : Nat) :
    ∀ i, (∀ j, j < budget → op (i + j) = Except.error ErrorKind.transient) →
      retryLoop op i budget = (budget, Except.error ErrorKind.transient) := by
  induction budget with
  | zero => intro i _; rfl
  | succ b ih =>
      intro i h
      have h0 : op i = Except.error ErrorKind.transient := by
        have := h 0 (Nat.succ_pos b)
        simpa using this
      have hrec := ih (i + 1) (fun j hj => by
        have := h (j + 1) (Nat.succ_lt_succ hj)
        simpa [Nat.add_assoc, Nat.add_comm 1 j] using this)
      simp [retryLoop, h0, hrec]

/-- Helper: when the first success is attempt m inside the budget, the
loop performs exactly m + 1 attempts and returns the success. -/
theorem retryLoop_first_success {α : Type} (op : Nat → Except ErrorKind α) (a : α) :
    ∀ m i budget, m < budget →
      (∀ j, j < m → op (i + j) = Except.error ErrorKind.transient) →
      op (i + m) = Except.ok a →
      retryLoop op i budget = (m + 1, Except.ok a) := by
  intro m
  induction m with
  | zero =>
      intro i budget hb _ hok
      obtain ⟨b, rfl⟩ : ∃ b, budget = b + 1 := ⟨budget - 1, by omega⟩
      simp only [Nat.add_zero] at hok
      simp [retryLoop, hok]
  | succ m ih =>
      intro i budget hb htr hok
      obtain ⟨b, rfl⟩ : ∃ b, budget = b + 1 := ⟨budget - 1, by omega⟩
      have h0 : op i = Except.error ErrorKind.transient := by
        have := htr 0 (Nat.succ_pos m)
        simpa using this
      have hrec := ih (i + 1) b (by omega)
        (fun j hj => by
          have := htr (j + 1) (Nat.succ_lt_succ hj)
          simpa [Nat.add_assoc, Nat.add_comm 1 j] using this)
        (by
          have : i + 1 + m = i + (m + 1) := by omega
          rw [this]; exact hok)
      simp [retryLoop, h0, hrec]

/-- C2: for an operation failing transiently k - 1 times before its
first success, RecoveryWrapper performs exactly min maxAttempts k
attempts; under the exponential policy each successive retry delay is
at least the previous one; and a fatal first failure stops the wrapper
after one attempt with no retry. -/
theorem C2_recovery_wrapper {α : Type} (p : RetryPolicy) (jit : Nat → Nat)
    (op : Nat → Except ErrorKind α) (k : Nat) (a : α) :
    (1 ≤ k →
      (∀ j, j < k - 1 → op j = Except.error ErrorKind.transient) →
      op (k - 1) = Except.ok a →
      (runRetry p op).1 = min p.maxAttempts k) ∧
    (p.strategy = Strategy.exponential →
      ∀ n, retryDelay p jit n ≤ retryDelay p jit (n + 1)) ∧
    (op 0 = Except.error ErrorKind.fatal → 1 ≤ p.maxAttempts →
      runRetry p op = (1, Except.error ErrorKind.fatal)) := by
  refine ⟨?_, ?_, ?_⟩
  · intro hk htr hok
    by_cases hmax : k ≤ p.maxAttempts
    · have hrun := retryLoop_first_success op a (k - 1) 0 p.maxAttempts (by omega)
        (fun j hj => by simpa using htr j hj)
        (by simpa using hok)
      have : k - 1 + 1 = k := by omega
      rw [runRetry, hrun, this]
      simp only [Prod.fst]
      omega
    · have hrun := retryLoop_all_transient op p.maxAttempts 0
        (fun j hj => by
          have : j < k - 1 := by omega
          simpa using htr j this)
      rw [runRetry, hrun]
      simp only [Prod.fst]
      omega
  · intro hs n
    simp only [retryDelay, hs]
    have hj1 : (if p.jitter then jit n % (p.baseDelay + 1) else 0) ≤ p.baseDelay := by
      split
      · exact Nat.lt_succ_iff.mp (Nat.mod_lt _ (Nat.succ_pos _))
      · exact Nat.zero_le _
    have hb : p.baseDelay ≤ p.baseDelay * 2 ^ n :=
      Nat.le_mul_of_pos_right _ (Nat.pos_pow_of_pos n (by norm_num))
    have hsucc : p.baseDelay * 2 ^ (n + 1) = p.baseDelay * 2 ^ n * 2 := by
      rw [pow_succ, Nat.mul_assoc]
    omega
  · intro h0 h1
    obtain ⟨m, hm⟩ : ∃ m, p.maxAttempts = m + 1 := ⟨p.maxAttempts - 1, by omega⟩
    rw [runRetry, hm]
    simp [retryLoop, h0]

/-- Witness for C2 at a concrete policy and operations: two transient
failures then success gives min 5 3 attempts, the exponential delays
grow, and the fatal operation stops after one attempt. -/
theorem C2_recovery_wrapper_witness :
    (runRetry pW opW).1 = min pW.maxAttempts 3 ∧
    retryDelay pW jitW 0 ≤ retryDelay pW jitW 1 ∧
    runRetry pW opFatalW = (1, Except.error ErrorKind.fatal) := by
  refine ⟨?_, ?_, ?_⟩
  · exact (C2_recovery_wrapper pW jitW opW 3 "done").1 (by decide)
      (fun j hj => by interval_cases j <;> rfl) rfl
  · exact (C2_recovery_wrapper pW jitW opW 3 "done").2.1 rfl 0
  · exact (C2_recovery_wrapper pW jitW opFatalW 3 "done").2.2 rfl (by decide)

/-- Helper: a plan whose steps produce no error-level result runs every
step, collects all warnings into the metadata, and applies every
effect. -/
theorem runPlan_no_error (sem : Step → StepOutcome) :
    ∀ (plan : List Step) (s : Session),
      (∀ st ∈ plan, hasError (sem st).results = false) →
      (runPlan sem s plan).ran = plan.map Step.name ∧
      (runPlan sem s plan).warnings =
        (plan.map (fun st => warningsOf (sem st).results)).flatten ∧
      (runPlan sem s plan).session = applyEffects sem s plan := by
  intro plan
  induction plan with
  | nil => intro s _; exact ⟨rfl, rfl, rfl⟩
  | cons st rest ih =>
      intro s h
      have h0 : hasError (sem st).results = false := h st (List.mem_cons_self st rest)
      have hr := ih ((sem st).effect s) (fun q hq => h q (List.mem_cons_of_mem st hq))
      simp [runPlan, h0, hr.1, hr.2.1, hr.2.2, applyEffects, List.flatten]

/-- Helper: the first step with an error-level result ends the run —
only the prefix and the failing step appear in ran, the failing step
reports its errors, and only the prefix effects reach the session. -/
theorem runPlan_abort (sem : Step → StepOutcome) :
    ∀ (pre : List Step) (st : Step) (post : List Step) (s : Session),
      (∀ p ∈ pre, hasError (sem p).results = false) →
      hasError (sem st).results = true →
      (runPlan sem s (pre ++ st :: post)).ran = pre.map Step.name ++ [st.name] ∧
      (runPlan sem s (pre ++ st :: post)).errors = (sem st).results ∧
      (runPlan sem s (pre ++ st :: post)).session = applyEffects sem s pre := by
  intro pre
  induction pre with
  | nil =>
      intro st post s _ he
      simp [runPlan, he, applyEffects]
  | cons p pre' ih =>
      intro st post s h he
      have hp : hasError (sem p).results = false := h p (List.mem_cons_self p pre')
      have hr := ih st post ((sem p).effect s) (fun q hq => h q (List.mem_cons_of_mem p hq)) he
      simp [runPlan, hp, hr.1, hr.2.1, hr.2.2, applyEffects]

/-- C3: a step producing an error-level ValidationResult aborts the
remaining ActionPlan steps — nothing after the failing step executes —
while warning-level results never block execution and are only attached
to the response metadata; in particular a modification request whose
target selector does not exist aborts the plan before apply_modification
runs and leaves session.phase unchanged. -/
theorem C3_error_aborts_plan (sem : Step → StepOutcome) (pre : List Step) (st : Step)
    (post : List Step) (plan : List Step) (s : Session) :
    ((∀ p ∈ pre, hasError (sem p).results = false) →
      hasError (sem st).results = true →
      (runPlan sem s (pre ++ st :: post)).ran = pre.map Step.name ++ [st.name] ∧
      (runPlan sem s (pre ++ st :: post)).session = applyEffects sem s pre) ∧
    ((∀ q ∈ plan, hasError (sem q).results = false) →
      (runPlan sem s plan).ran = plan.map Step.name ∧
      (runPlan sem s plan).warnings =
        (plan.map (fun q => warningsOf (sem q).results)).flatten) ∧
    ((runPlan selectorErrorSem sessionW modificationPlan).ran = ["analyze_modification"] ∧
      "apply_modification" ∉ (runPlan selectorErrorSem sessionW modificationPlan).ran ∧
      (runPlan selectorErrorSem sessionW modificationPlan).errors =
        [{ field := "target_selector", level := Level.error,
           message := "selector does not reference an existing element" }] ∧
      (runPlan selectorErrorSem sessionW modificationPlan).session.phase = sessionW.phase) := by
  refine ⟨?_, ?_, ?_, ?_, ?_, ?_⟩
  · intro hpre he
    exact ⟨(runPlan_abort sem pre st post s hpre he).1,
      (runPlan_abort sem pre st post s hpre he).2.2⟩
  · intro h
    exact ⟨(runPlan_no_error sem plan s h).1, (runPlan_no_error sem plan s h).2.1⟩
  · decide
  · decide
  · decide
  · decide

/-- Witness for C3 at the concrete selector-error scenario: the failing
analysis step stops the plan at once, and an error-free one-step plan
runs in full. -/
theorem C3_error_aborts_plan_witness :
    (runPlan selectorErrorSem sessionW
      ([] ++ { kind := StepKind.llm_call, name := "analyze_modification" } ::
        [{ kind := StepKind.tool_call, name := "apply_modification" },
         { kind := StepKind.tool_call, name := "refresh_preview" }])).ran =
      List.map Step.name [] ++ ["analyze_modification"] ∧
    (runPlan selectorErrorSem sessionW
      [{ kind := StepKind.tool_call, name := "refresh_preview" }]).ran =
      List.map Step.name [{ kind := StepKind.tool_call, name := "refresh_preview" }] := by
  constructor
  · exact ((C3_error_aborts_plan selectorErrorSem []
      { kind := StepKind.llm_call, name := "analyze_modification" }
      [{ kind := StepKind.tool_call, name := "apply_modification" },
       { kind := StepKind.tool_call, name := "refresh_preview" }]
      [] sessionW).1 (by simp) (by decide)).1
  · exact ((C3_error_aborts_plan selectorErrorSem []
      { kind := StepKind.llm_call, name := "analyze_modification" } []
      [{ kind := StepKind.tool_call, name := "refresh_preview" }] sessionW).2.1 (by decide)).1

/-- C5: reset restores the session to phase INITIAL with empty context
and history, keeps the id and the creation timestamp (and updatedAt),
and leaves every other session of the store untouched. -/
theorem C5_reset_frame (store : SessionStore) (sid : String) (s : Session) :
    store sid = some s →
      SessionStore.reset store sid sid =
        some { id := s.id, phase := Phase.INITIAL, context := [], history := [],
               createdAt := s.createdAt, updatedAt := s.updatedAt } ∧
      ∀ k, k ≠ sid → SessionStore.reset store sid k = store k := by
  intro h
  refine ⟨?_, ?_⟩
  · simp [SessionStore.reset, h]
  · intro k hk
    simp [SessionStore.reset, hk]

/-- Witness for C5 at the concrete two-session store: resetting id a
yields the cleared INITIAL record and id b is untouched. -/
theorem C5_reset_frame_witness :
    SessionStore.reset storeW "a" "a" =
      some { id := sessAW.id, phase := Phase.INITIAL, context := [], history := [],
             createdAt := sessAW.createdAt, updatedAt := sessAW.updatedAt } ∧
    SessionStore.reset storeW "a" "b" = storeW "b" := by
  have h := C5_reset_frame storeW "a" sessAW rfl
  exact ⟨h.1, h.2 "b" (by decide)⟩

/-- C6: a pending FeedbackRequest resolves exactly once — explicit
approve/deny fixes the outcome, the deadline sweep auto-resolves per
the default policy (approve when low-risk, deny otherwise), an already
resolved request is immutable, and a second resolution attempt is a
no-op returning the original outcome. -/
theorem C6_feedback_exactly_once (r : FeedbackRequest) (a a2 : ResolveAction) (now : Nat) :
    (r.status = FeedbackStatus.pending →
      (resolve r ResolveAction.approve).1 = some true ∧
      (resolve r ResolveAction.approve).2.status = FeedbackStatus.approved ∧
      (resolve r ResolveAction.deny).1 = some false ∧
      (resolve r ResolveAction.deny).2.status = FeedbackStatus.denied) ∧
    (r.status = FeedbackStatus.pending → r.deadline ≤ now →
      resolve r (ResolveAction.sweep now) =
        (some r.lowRisk,
          { r with status := FeedbackStatus.timed_out, outcome := some r.lowRisk })) ∧
    (r.status ≠ FeedbackStatus.pending → resolve r a = (r.outcome, r)) ∧
    ((resolve r a).2.status ≠ FeedbackStatus.pending →
      resolve (resolve r a).2 a2 = resolve r a) := by
  refine ⟨?_, ?_, ?_, ?_⟩
  · intro h
    simp [resolve, h]
  · intro h hd
    simp [resolve, h, hd]
  · intro h
    simp [resolve, h]
  · intro hres
    by_cases hp : r.status = FeedbackStatus.pending
    · cases a with
      | approve => simp [resolve, hp]
      | deny => simp [resolve, hp]
      | sweep n =>
          by_cases hd : r.deadline ≤ n
          · simp [resolve, hp, hd]
          · exfalso
            apply hres
            simp [resolve, hp, hd]
    · simp [resolve, hp]

/-- Witness for C6 at a concrete low-risk request swept past its
deadline: it auto-approves, and a later deny attempt is a no-op. -/
theorem C6_feedback_exactly_once_witness :
    resolve reqW (ResolveAction.sweep 12) =
      (some reqW.lowRisk,
        { reqW with status := FeedbackStatus.timed_out, outcome := some reqW.lowRisk }) ∧
    resolve (resolve reqW (ResolveAction.sweep 12)).2 ResolveAction.deny =
      resolve reqW (ResolveAction.sweep 12) := by
  have h := C6_feedback_exactly_once reqW (ResolveAction.sweep 12) ResolveAction.deny 12
  exact ⟨h.2.1 rfl (by decide), h.2.2.2 (by decide)⟩

/-- C7: a turn always assembles the outbound result of the declared
shape — the request session id is echoed, every executed step yields an
actions entry, a failed step becomes an entry with success false and an
error description, and every failed entry carries one. -/
theorem C7_turn_result_shape (req : TurnRequest) (respText intentLbl : String)
    (td : Option String) (steps : List (String × Except String String)) :
    (runTurn req respText intentLbl td steps).sessionId = req.sessionId ∧
    (runTurn req respText intentLbl td steps).response = respText ∧
    (runTurn req respText intentLbl td steps).actions.length = steps.length ∧
    (∀ (i : Nat) (nm : String) (msg : String), steps[i]? = some (nm, Except.error msg) →
      (runTurn req respText intentLbl td steps).actions[i]? =
        some { action := nm, success := false, data := none, error := some msg }) ∧
    (∀ ar ∈ (runTurn req respText intentLbl td steps).actions,
      ar.success = false → ar.error ≠ none) := by
  refine ⟨rfl, rfl, by simp [runTurn], ?_, ?_⟩
  · intro i nm msg h
    simp [runTurn, List.getElem?_map, h, actionOf]
  · intro ar har hfail
    simp only [runTurn, List.mem_map] at har
    obtain ⟨p, hp, rfl⟩ := har
    rcases p with ⟨nm, ex⟩
    cases ex with
    | ok v => simp [actionOf] at hfail
    | error e => simp [actionOf]

/-- Witness for C7 at a concrete turn whose second step fails: the
failure appears as an unsuccessful action with its error text. -/
theorem C7_turn_result_shape_witness :
    (runTurn reqTurnW "done" "modification_request" none stepsW).actions[1]? =
      some { action := "apply_modification", success := false, data := none,
             error := some "tool unavailable" } ∧
    (runTurn reqTurnW "done" "modification_request" none stepsW).sessionId =
      reqTurnW.sessionId := by
  have h := C7_turn_result_shape reqTurnW "done" "modification_request" none stepsW
  exact ⟨h.2.2.2.1 1 "apply_modification" "tool unavailable" rfl, h.1⟩

/-- C9: in a successful non-logo editor chat turn the displayed uiCodes
are refreshed exactly when the reply carries ui_modifications and its
metadata intent is modification_request; every other successful reply
leaves uiCodes unchanged. -/
theorem C9_uicodes_refresh (st : EditorState) (d : EditorChatData) (fetched : Option String) :
    jsTrim st.inputMessage ≠ "" → st.isSending = false → d.success = true →
      ((handleSendMessage st (Except.ok d) fetched).uiCodes =
        if refreshCondition d then fetched else st.uiCodes) ∧
      (refreshCondition d = true ↔
        d.ui_modifications.isSome = true ∧ d.metadataIntent = some "modification_request") ∧
      (refreshCondition d = false →
        (handleSendMessage st (Except.ok d) fetched).uiCodes = st.uiCodes) := by
  intro h1 h2 h3
  have hguard : ¬ (jsTrim st.inputMessage = "" ∨ st.isSending = true) := by
    simp [h1, h2]
  refine ⟨?_, ?_, ?_⟩
  · by_cases hr : refreshCondition d
    · simp [handleSendMessage, hguard, h3, hr]
    · simp [handleSendMessage, hguard, h3, hr]
  · simp [refreshCondition]
  · intro hr
    simp [handleSendMessage, hguard, h3, hr]

/-- Witness for C9 at concrete replies: the modification reply installs
the re-fetched codes, the plain reply leaves the codes unchanged. -/
theorem C9_uicodes_refresh_witness :
    (handleSendMessage editorStateW (Except.ok replyModW) (some "new codes")).uiCodes =
      (if refreshCondition replyModW then some "new codes" else editorStateW.uiCodes) ∧
    (handleSendMessage editorStateW (Except.ok replyPlainW) (some "new codes")).uiCodes =
      editorStateW.uiCodes := by
  constructor
  · exact ((C9_uicodes_refresh editorStateW replyModW (some "new codes"))
      (by decide) rfl rfl).1
  · exact ((C9_uicodes_refresh editorStateW replyPlainW (some "new codes"))
      (by decide) rfl rfl).2.2 (by decide)

/-- C10: the logo upload handler accepts a file — no alert, uploadedLogo
and logoPreview set — exactly when its MIME type starts with image/ and
its size is at most 5 MB; a violating file triggers the alert and
leaves the logo state unchanged. -/
theorem C10_logo_upload (st : LogoState) (f : JsFile) :
    ((handleLogoUpload st (some f)).2 = false ↔
      strStartsWith f.type "image/" = true ∧ f.size ≤ 5 * 1024 * 1024) ∧
    (strStartsWith f.type "image/" = true → f.size ≤ 5 * 1024 * 1024 →
      handleLogoUpload st (some f) =
        ({ uploadedLogo := some f, logoPreview := some f.dataUrl }, false)) ∧
    (¬ strStartsWith f.type "image/" = true ∨ 5 * 1024 * 1024 < f.size →
      handleLogoUpload st (some f) = (st, true)) := by
  refine ⟨?_, ?_, ?_⟩
  · by_cases ht : strStartsWith f.type "image/" = true
    · by_cases hs : 5 * 1024 * 1024 < f.size
      · simp [handleLogoUpload, ht, hs]
      · simp [handleLogoUpload, ht, hs]
        omega
    · simp [handleLogoUpload, ht]
  · intro ht hs
    simp [handleLogoUpload, ht, Nat.not_lt.mpr hs]
  · intro h
    rcases h with ht | hs
    · simp [handleLogoUpload, ht]
    · by_cases ht : strStartsWith f.type "image/" = true
      · simp [handleLogoUpload, ht, hs]
      · simp [handleLogoUpload, ht]

/-- Witness for C10 at concrete files: a small png is accepted, an
oversized png is rejected with the state unchanged. -/
theorem C10_logo_upload_witness :
    handleLogoUpload logoStateW (some fileGoodW) =
      ({ uploadedLogo := some fileGoodW, logoPreview := some fileGoodW.dataUrl }, false) ∧
    handleLogoUpload logoStateW (some fileBigW) = (logoStateW, true) := by
  constructor
  · exact (C10_logo_upload logoStateW fileGoodW).2.1 (by decide) (by decide)
  · exact (C10_logo_upload logoStateW fileBigW).2.2 (Or.inr (by decide))

/-- C4 counterexample: the editor-handoff reply that ChatScreen.js
line 211 branches on carries intent phase_transition, a value outside
the five claimed intent labels — so the intent field of a turn is not
limited to those five values. -/
theorem C4_intent_counterexample :
    isPhaseTransition transitionReplyW = true ∧
    transitionReplyW.intent = some "phase_transition" ∧
    "phase_transition" ∉ intentLabels := by
  refine ⟨by decide, rfl, by decide⟩

/-- C4 (amended): classify returns one of the five intent labels, and a
below-threshold gateway result is coerced to general_query; but the
intent field of a turn reply is not limited to those five — the
frontend recognizes the additional value phase_transition (together
with transition data) as the editor-handoff signal. -/
theorem C4_intent_amended (ruleMatch : Option String) (g : String) (c th : Nat) :
    ((∀ i, ruleMatch = some i → i ∈ intentLabels) → g ∈ intentLabels →
      classify ruleMatch g c th ∈ intentLabels) ∧
    (ruleMatch = none → c < th → classify ruleMatch g c th = "general_query") ∧
    (∀ d : ChatData, isPhaseTransition d = true →
      d.intent = some "phase_transition" ∧ "phase_transition" ∉ intentLabels) := by
  refine ⟨?_, ?_, ?_⟩
  · intro hr hg
    cases hm : ruleMatch with
    | some i =>
        have hi := hr i hm
        simpa [classify] using hi
    | none =>
        by_cases hc : c < th
        · simp only [classify, if_pos hc]
          decide
        · simpa [classify, hc] using hg
  · intro hm hc
    subst hm
    simp [classify, hc]
  · intro d hd
    simp only [isPhaseTransition, Bool.and_eq_true, beq_iff_eq] at hd
    exact ⟨hd.2, by decide⟩

/-- Witness for C4 (amended) at concrete inputs: low confidence coerces
to general_query, a rule match stays in the label set, and the concrete
handoff reply carries phase_transition. -/
theorem C4_intent_amended_witness :
    classify none "confirmation" 1 5 = "general_query" ∧
    classify (some "category_selection") "general_query" 9 5 ∈ intentLabels ∧
    transitionReplyW.intent = some "phase_transition" := by
  refine ⟨(C4_intent_amended none "confirmation" 1 5).2.1 rfl (by decide), ?_, ?_⟩
  · exact (C4_intent_amended (some "category_selection") "general_query" 9 5).1
      (by intro i hi; injection hi with h; rw [← h]; decide) (by decide)
  · exact ((C4_intent_amended none "general_query" 0 1).2.2 transitionReplyW (by decide)).1

/-- C8 counterexample: the chat-turn fetch of ChatScreen.sendToMultiAgent
is an external call of the workflow with no timeout at all, so not
every external call is subject to a 60 s-default cancellation
timeout. -/
theorem C8_timeout_counterexample :
    chatCallSite ∈ externalCallSites ∧
    chatCallSite.timeoutMs = none ∧
    ¬ ∀ c ∈ externalCallSites, c.timeoutMs = some defaultTimeoutMs := by
  refine ⟨by decide, rfl, by decide⟩

/-- C8 (amended): only the report-page calls are wrapped in withTimeout,
whose 60000 ms default makes a call that has not settled within the
timeout fail with Request timed out instead of blocking; the category
fetch uses a 10 s abort signal, and the chat, session-reset, editor and
modification calls carry no timeout. -/
theorem C8_timeout_amended (t : Nat) (r : Except String String) :
    (t < defaultTimeoutMs → withTimeout t r defaultTimeoutMs = r) ∧
    (defaultTimeoutMs ≤ t →
      withTimeout t r defaultTimeoutMs = Except.error "Request timed out") ∧
    (CallSite.mk "api/ui-editor/generate-custom-report" (some defaultTimeoutMs) ∈
        externalCallSites ∧
      CallSite.mk "api/reports/download" (some defaultTimeoutMs) ∈ externalCallSites ∧
      chatCallSite ∈ externalCallSites ∧ chatCallSite.timeoutMs = none) := by
  refine ⟨?_, ?_, ?_⟩
  · intro h
    simp [withTimeout, h]
  · intro h
    simp [withTimeout, Nat.not_lt.mpr h]
  · exact ⟨by decide, by decide, by decide, rfl⟩

/-- Witness for C8 (amended) at the default timeout boundary: a call
settling at 59999 ms passes through, one settling at 60000 ms times
out. -/
theorem C8_timeout_amended_witness :
    withTimeout 59999 (Except.ok "pdf") defaultTimeoutMs = Except.ok "pdf" ∧
    withTimeout 60000 (Except.ok "pdf") defaultTimeoutMs =
      Except.error "Request timed out" := by
  exact ⟨(C8_timeout_amended 59999 (Except.ok "pdf")).1 (by decide),
    (C8_timeout_amended 60000 (Except.ok "pdf")).2.1 (by decide)⟩
